import Mathlib

/-!
# gorse: storage engine (`app/engine/database.go`) and benchmark checks (`model/perf_test.go`)

The storage engine talks to a SQL server through `database/sql`.  The embedding has two layers:

* the Go methods of `Database`, written over an abstract connection (`Driver`): they issue the
  statements of the source and react to what the connection answers;
* a small model of the MySQL server behind the connection (`MySQL.driver`): tables with typed
  columns and a unique key, and the five kinds of statement the program issues.

SQL statements are transcribed from the source strings into the abstract syntax `Stmt`; each
transcription quotes the string it comes from.
-/

namespace Gorse

/-! ## Values, errors, outcomes -/

/-- SQL values as they cross the connection: Go `int`, Go `float64` (taken as an exact rational)
and Go `string`. -/
inductive Value
  | int (n : Int)
  | double (q : ℚ)
  | str (s : String)
  deriving DecidableEq

/-- Error values the modelled calls can return (the number is the MySQL error code). -/
inductive Err
  /-- 1064: the statement is not valid SQL. -/
  | parseFailure (near : String)
  /-- 1050: table already exists. -/
  | tableExists (table : String)
  /-- 1146: table does not exist. -/
  | noSuchTable (table : String)
  /-- 1054: unknown column. -/
  | unknownColumn (col : String)
  /-- 1264: out of range value for an integer column. -/
  | outOfRange (col : String)
  /-- 1366: text that is not a number for a numeric column. -/
  | badValue (col : String)
  /-- 1136: the number of values is not the number of columns. -/
  | fieldCount
  /-- database/sql: "expected want arguments, got got". -/
  | argCount (want got : Nat)
  /-- go-sql-driver: no reader handler registered under this name. -/
  | noReader (name : String)
  /-- database/sql: `Scan` could not convert the column into the destination. -/
  | scan
  /-- The statement returns no rows (it was sent with `Query`). -/
  | notAQuery
  deriving DecidableEq

/-- What a Go call does: it returns, or it panics with a message. -/
inductive Outcome (α : Type)
  | ret (a : α)
  | panic (msg : String)
  deriving DecidableEq

/-! ## SQL statements -/

/-- Column types: `int` and `double` are the ones `Init` uses; `text` is for a column of names,
like the one `GetMeta` compares with a string. -/
inductive ColType
  | int
  | double
  | text
  deriving DecidableEq

/-- One column of a `CREATE TABLE`: `name ty NOT NULL`. -/
structure ColDef where
  name : String
  ty : ColType
  deriving DecidableEq

/-- The key clause of a `CREATE TABLE`. -/
inductive KeyClause
  /-- `UNIQUE KEY index (c1,c2,...)`. -/
  | uniqueKey (index : String) (cols : List String)
  /-- `UNIQUE KEY index col`, the column list written without parentheses. -/
  | uniqueKeyBare (index : String) (col : String)
  deriving DecidableEq

/-- Right-hand side of a `WHERE col = ...`. -/
inductive Operand
  /-- `?`: a placeholder, bound to the next argument. -/
  | placeholder
  /-- `'text'`: a string literal. -/
  | strLit (s : String)
  deriving DecidableEq

/-- The statements the program issues. -/
inductive Stmt
  /-- `CREATE TABLE table (cols..., key)`. -/
  | createTable (table : String) (cols : List ColDef) (key : KeyClause)
  /-- `SELECT col FROM table WHERE whereCol = rhs [ORDER BY orderBy DESC]`. -/
  | selectWhere (col table whereCol : String) (rhs : Operand) (orderByDesc : Option String)
  /-- `SELECT COUNT(*) FROM table`. -/
  | selectCount (table : String)
  /-- `LOAD DATA LOCAL INFILE 'Reader::reader' INTO TABLE table`. -/
  | loadDataLocalInfile (reader : String) (table : String)
  /-- `INSERT INTO table VALUES(?, ..., ?) ON DUPLICATE KEY UPDATE updCol=VALUES(updCol)`,
  with `nValues` placeholders. -/
  | insertOnDuplicateKeyUpdate (table : String) (nValues : Nat) (updCol : String)
  deriving DecidableEq

/-- Rows of a result set or of a table. -/
abbrev Row := List Value

/-- The connection as `Database` uses it (`database/sql` plus the driver package), over a
server state `σ`. -/
structure Driver (σ : Type) where
  /-- `connection.Exec(stmt, args...)`: new state and error. -/
  Exec : σ → Stmt → List Value → σ × Option Err
  /-- `connection.Query(stmt, args...)`: the rows, or an error. -/
  Query : σ → Stmt → List Value → Except Err (List Row)
  /-- `connection.Prepare(stmt)`: the error, if any. -/
  Prepare : σ → Stmt → Option Err
  /-- `mysql.RegisterReaderHandler(name, handler)`, the handler given by the bytes it reads. -/
  RegisterReaderHandler : σ → String → String → σ

/-! ## The statements of `database.go` -/

/-- Line 31: `CREATE TABLE ratings (user_id int NOT NULL, item_id int NOT NULL,
rating int NOT NULL, UNIQUE KEY unique_index (user_id,item_id))`. -/
def createRatings : Stmt :=
  .createTable "ratings"
    [⟨"user_id", .int⟩, ⟨"item_id", .int⟩, ⟨"rating", .int⟩]
    (.uniqueKey "unique_index" ["user_id", "item_id"])

/-- Line 41: `CREATE TABLE recommends (user_id int NOT NULL, item_id int NOT NULL,
ranking double NOT NULL, UNIQUE KEY unique_index (user_id,item_id))`. -/
def createRecommends : Stmt :=
  .createTable "recommends"
    [⟨"user_id", .int⟩, ⟨"item_id", .int⟩, ⟨"ranking", .double⟩]
    (.uniqueKey "unique_index" ["user_id", "item_id"])

/-- Line 51: `CREATE TABLE items (item_id int NOT NULL, UNIQUE KEY unique_index item_id)`. -/
def createItems : Stmt :=
  .createTable "items" [⟨"item_id", .int⟩] (.uniqueKeyBare "unique_index" "item_id")

/-- Line 68: `SELECT value FROM status WHERE name = '?'`. -/
def selectMeta : Stmt :=
  .selectWhere "value" "status" "name" (.strLit "?") none

/-- Line 89: `SELECT COUNT(*) FROM ratings`. -/
def selectCountRatings : Stmt :=
  .selectCount "ratings"

/-- Line 120: `SELECT item_id FROM recommends WHERE user_id=? ORDER BY rating DESC;`. -/
def selectRecommends : Stmt :=
  .selectWhere "item_id" "recommends" "user_id" .placeholder (some "rating")

/-- Line 158: `LOAD DATA LOCAL INFILE 'Reader::update_recommends' INTO TABLE recommends`. -/
def loadRecommends : Stmt :=
  .loadDataLocalInfile "update_recommends" "recommends"

/-- Line 165: `INSERT INTO ratings VALUES(?, ?, ?) ON DUPLICATE KEY UPDATE
rating=VALUES(rating)`. -/
def upsertRating : Stmt :=
  .insertOnDuplicateKeyUpdate "ratings" 3 "rating"

/-! ## The methods of `Database` -/

section Methods

variable {σ : Type}

/-- `Database.Init`: the three `CREATE TABLE` statements in order, stopping at the first
error. -/
def Init (d : Driver σ) (s : σ) : σ × Option Err :=
  match d.Exec s createRatings [] with
  | (s1, some err) => (s1, some err)
  | (s1, none) =>
    match d.Exec s1 createRecommends [] with
    | (s2, some err) => (s2, some err)
    | (s2, none) => d.Exec s2 createItems []

/-- `Database.LoadItemsFromCSV`: the body is `return nil`. -/
def LoadItemsFromCSV (_d : Driver σ) (s : σ) (_fileName _sep : String) (_header : Bool) :
    σ × Option Err :=
  (s, none)

/-- `Database.LoadRatingsFromCSV`: the body is `return nil`. -/
def LoadRatingsFromCSV (_d : Driver σ) (s : σ) (_fileName _sep : String) (_header : Bool) :
    σ × Option Err :=
  (s, none)

/-- Value of a decimal digit. -/
def digitVal (c : Char) : Option Nat :=
  if c.isDigit then some (c.toNat - 48) else none

/-- Reads the digits in `cs` after the digits already read as `acc`. -/
def parseDigits : List Char → Nat → Option Nat
  | [], acc => some acc
  | c :: cs, acc =>
    match digitVal c with
    | none => none
    | some v => parseDigits cs (10 * acc + v)

/-- Reads a non-empty run of decimal digits. -/
def parseNat : List Char → Option Nat
  | [] => none
  | c :: cs => parseDigits (c :: cs) 0

/-- Reads a decimal integer: an optional sign, then digits (the text `strconv.ParseInt(s, 10, 64)`
accepts, before its range check; the same text is what MySQL reads as an integer). -/
def parseInt : List Char → Option Int
  | '-' :: cs => (parseNat cs).map (fun n => - (n : Int))
  | '+' :: cs => (parseNat cs).map (fun n => (n : Int))
  | cs => (parseNat cs).map (fun n => (n : Int))

/-- Range of a Go `int` (64 bits). -/
def inInt64 (n : Int) : Bool :=
  -9223372036854775808 ≤ n ∧ n ≤ 9223372036854775807

/-- `rows.Scan(&x)` with `x` a Go `int`, on one row of the result: an integer column is copied, a
string column is parsed by `strconv.ParseInt(s, 10, 64)`, which rejects a numeral outside the
64-bit range, a float column goes through its `%g` text, which is an integer numeral only for an
integral value below `10^6` in magnitude; a row that has not exactly one column is an error. -/
def scanInt : Row → Except Err Int
  | [.int n] => if inInt64 n then .ok n else .error .scan
  | [.double q] => if q.den = 1 ∧ |q.num| < 1000000 then .ok q.num else .error .scan
  | [.str s] =>
    match parseInt s.data with
    | some n => if inInt64 n then .ok n else .error .scan
    | none => .error .scan
  | _ => .error .scan

/-- `Database.GetMeta`: query, return the error if there is one, scan the first row if there is
one, panic otherwise.  The named results start as `count = 0`, `err = nil`. -/
def GetMeta (d : Driver σ) (s : σ) (name : String) : Outcome (Int × Option Err) :=
  match d.Query s selectMeta [.str name] with
  | .error err => .ret (0, some err)
  | .ok (row :: _) =>
    match scanInt row with
    | .error err => .ret (0, some err)
    | .ok count => .ret (count, none)
  | .ok [] => .panic "Get meta data failed"

/-- `Database.SetMeta`: the body is `panic("Not implemented")`. -/
def SetMeta (_d : Driver σ) (_s : σ) (_name : String) (_val : Int) : Outcome (σ × Option Err) :=
  .panic "Not implemented"

/-- `Database.CurrentRatings`. -/
def CurrentRatings (d : Driver σ) (s : σ) : Outcome (Int × Option Err) :=
  match d.Query s selectCountRatings [] with
  | .error err => .ret (0, some err)
  | .ok (row :: _) =>
    match scanInt row with
    | .error err => .ret (0, some err)
    | .ok count => .ret (count, none)
  | .ok [] => .panic "SELECT COUNT(*) FROM ratings failed"

/-- `Database.LastRatings`. -/
def LastRatings (d : Driver σ) (s : σ) : Outcome (Int × Option Err) :=
  GetMeta d s "last_count"

/-- `Database.Version`. -/
def Version (d : Driver σ) (s : σ) : Outcome (Int × Option Err) :=
  GetMeta d s "version"

/-- The loop of `GetRecommends` over the rows: scan each, stop at the first scan error. -/
def scanItems : List Row → List Int → Option (List Int) × Option Err
  | [], res => (some res, none)
  | row :: rows, res =>
    match scanInt row with
    | .error err => (none, some err)
    | .ok itemId => scanItems rows (res ++ [itemId])

/-- `Database.GetRecommends`; a nil slice is `none`. -/
def GetRecommends (d : Driver σ) (s : σ) (userId : Int) : Option (List Int) × Option Err :=
  match d.Query s selectRecommends [.int userId] with
  | .error err => (none, some err)
  | .ok rows => scanItems rows []

/-- `Database.GetRandom`: the body is `panic("Not implemented")`. -/
def GetRandom (_d : Driver σ) (_s : σ) : Outcome (List Int × Option Err) :=
  .panic "Not implemented"

/-- `Database.GetPopular`: the body is `panic("Not implemented")`. -/
def GetPopular (_d : Driver σ) (_s : σ) : Outcome (List Int × Option Err) :=
  .panic "Not implemented"

/-- `Database.GetList`: the body is `panic("Not implemented")`. -/
def GetList (_d : Driver σ) (_s : σ) : Outcome (List Int × Option Err) :=
  .panic "Not implemented"

/-- Go `%d` of an `int`: decimal digits, with a leading `-` for a negative number. -/
def fmtD : Int → String
  | .ofNat n => Nat.repr n
  | .negSucc n => "-" ++ Nat.repr (n + 1)

/-- `fmt.Sprintf("%d\t%d\t%d\n", userId, itemId, i)`. -/
def sprintfRecord (userId itemId : Int) (i : Nat) : String :=
  fmtD userId ++ "\t" ++ fmtD itemId ++ "\t" ++ fmtD i ++ "\n"

/-- The loop of `UpdateRecommends`: `for i, itemId := range items`, appending one formatted
record to `buf` per item; `i` is the index of the head of the remaining items. -/
def writeRecords (userId : Int) : List Int → Nat → String → String
  | [], _, buf => buf
  | itemId :: rest, i, buf => writeRecords userId rest (i + 1) (buf ++ sprintfRecord userId itemId i)

/-- The bytes `UpdateRecommends` hands to the reader handler: the loop run on an empty buffer. -/
def recommendsData (userId : Int) (items : List Int) : String :=
  writeRecords userId items 0 ""

/-- `Database.UpdateRecommends`. -/
def UpdateRecommends (d : Driver σ) (s : σ) (userId : Int) (items : List Int) : σ × Option Err :=
  let buf := recommendsData userId items
  let s1 := d.RegisterReaderHandler s "update_recommends" buf
  d.Exec s1 loadRecommends []

/-- `Database.PutRating`: prepare, then execute with the three arguments. -/
def PutRating (d : Driver σ) (s : σ) (userId itemId : Int) (rating : ℚ) : σ × Option Err :=
  match d.Prepare s upsertRating with
  | some err => (s, some err)
  | none => d.Exec s upsertRating [.int userId, .int itemId, .double rating]

end Methods

/-! ## The MySQL server behind the connection -/

namespace MySQL

/-- A table: its columns in declaration order, the columns of its unique key, its rows in
insertion order. -/
structure Table where
  name : String
  cols : List ColDef
  unique : List String
  rows : List Row
  deriving DecidableEq

/-- Server state and the reader handlers registered with the driver package. -/
structure Store where
  tables : List Table
  readers : List (String × String)
  deriving DecidableEq

/-- An empty database, no reader handler registered. -/
def Store.empty : Store :=
  ⟨[], []⟩

/-- The table called `name`, if there is one. -/
def Store.table (s : Store) (name : String) : Option Table :=
  s.tables.find? (fun t => t.name = name)

/-- Replaces the rows of the table called `name`. -/
def Store.setRows (s : Store) (name : String) (rows : List Row) : Store :=
  ⟨s.tables.map (fun t => if t.name = name then ⟨t.name, t.cols, t.unique, rows⟩ else t),
    s.readers⟩

/-- Position of the column called `name`. -/
def colIndex : List ColDef → String → Option Nat
  | [], _ => none
  | c :: cs, name => if c.name = name then some 0 else (colIndex cs name).map (· + 1)

/-- How many `?` the statement has (`NumInput` of the prepared statement). -/
def numInput : Stmt → Nat
  | .createTable _ _ _ => 0
  | .selectWhere _ _ _ .placeholder _ => 1
  | .selectWhere _ _ _ (.strLit _) _ => 0
  | .selectCount _ => 0
  | .loadDataLocalInfile _ _ => 0
  | .insertOnDuplicateKeyUpdate _ n _ => n

/-- A value in numeric context: text counts as the integer it spells, or `0`. -/
def Value.num : Value → ℚ
  | .int n => n
  | .double q => q
  | .str s => ((parseInt s.data).getD 0 : Int)

/-- Text as the default collations compare it: without the case of ASCII letters (other foldings
of a collation are not modelled). -/
def foldCase (s : String) : List Char :=
  s.data.map Char.toLower

/-- The comparison `column = value` of a `WHERE`: two texts compare as texts, anything else as
numbers. -/
def valEq : Value → Value → Bool
  | .str a, .str b => foldCase a = foldCase b
  | a, b => Value.num a = Value.num b

/-- Rounds to the nearest integer, a tie to the even one (`rint`). -/
def roundHalfEven (q : ℚ) : Int :=
  let f := ⌊q⌋
  if q - f < 1 / 2 then f
  else if 1 / 2 < q - f then f + 1
  else if f % 2 = 0 then f else f + 1

/-- Range of a MySQL `int` column. -/
def inIntRange (n : Int) : Bool :=
  -2147483648 ≤ n ∧ n ≤ 2147483647

/-- Stores an integer in a column of type `c.ty` in an `INSERT` (strict mode: out of range is an
error). -/
def storeInt (c : ColDef) (n : Int) : Except Err Value :=
  match c.ty with
  | .int => if inIntRange n then .ok (.int n) else .error (.outOfRange c.name)
  | .double => .ok (.double n)
  | .text => .ok (.str (fmtD n))

/-- Stores a value in a column in an `INSERT`: a number is converted to the column type (a float
is rounded into an `int` column), text goes into a text column as it is and must spell an integer
for a numeric column. The text MySQL gives a float is not modelled: a float for a text column is
reported as error 1366 (the program inserts into `ratings` only, which has no text column). -/
def coerce (c : ColDef) : Value → Except Err Value
  | .int n => storeInt c n
  | .double q =>
    match c.ty with
    | .int => storeInt c (roundHalfEven q)
    | .double => .ok (.double q)
    | .text => .error (.badValue c.name)
  | .str s =>
    match c.ty with
    | .text => .ok (.str s)
    | _ =>
      match parseInt s.data with
      | some n => storeInt c n
      | none => .error (.badValue c.name)

/-- Converts the values of an `INSERT` to the column types; the counts must agree. -/
def coerceRow : List ColDef → List Value → Except Err Row
  | [], [] => .ok []
  | c :: cs, v :: vs =>
    match coerce c v with
    | .error e => .error e
    | .ok w =>
      match coerceRow cs vs with
      | .error e => .error e
      | .ok ws => .ok (w :: ws)
  | _, _ => .error .fieldCount

/-- The values of `row` in the columns `names`. -/
def keyOf (cols : List ColDef) (names : List String) (row : Row) : List (Option Value) :=
  names.map (fun n => (colIndex cols n).bind (fun i => row.get? i))

/-- Whether two rows agree on the unique key (a table without a key has no duplicates). -/
def sameKey (t : Table) (a b : Row) : Bool :=
  !t.unique.isEmpty && keyOf t.cols t.unique a = keyOf t.cols t.unique b

/-- Splits at every `sep`; the pieces do not contain `sep`. -/
def splitOn (sep : Char) : List Char → List (List Char)
  | [] => [[]]
  | c :: cs =>
    if c = sep then [] :: splitOn sep cs
    else
      match splitOn sep cs with
      | [] => [[c]]
      | w :: ws => (c :: w) :: ws

/-- The lines of a loaded file: pieces ended by a newline, and a last piece without one when it is
not empty. -/
def linesOf (data : List Char) : List (List Char) :=
  let pieces := splitOn '\n' data
  if pieces.getLast? = some [] then pieces.dropLast else pieces

/-- Clamps into the range of an `int` column. -/
def clampInt (n : Int) : Int :=
  if n < -2147483648 then -2147483648 else if 2147483647 < n then 2147483647 else n

/-- Stores one field of a loaded line. `LOAD DATA LOCAL` turns conversion errors into warnings:
an integer out of range is clamped. Text that is not an integer numeral counts as `0` here (the
program streams `%d` numerals only). -/
def loadField (c : ColDef) (field : List Char) : Value :=
  let n := (parseInt field).getD 0
  match c.ty with
  | .int => .int (clampInt n)
  | .double => .double n
  | .text => .str (String.mk field)

/-- The row a loaded line gives: fields go to the columns in order, a missing field counts as
empty, fields beyond the last column are dropped. -/
def loadRow : List ColDef → List (List Char) → Row
  | [], _ => []
  | c :: cs, [] => loadField c [] :: loadRow cs []
  | c :: cs, f :: fs => loadField c f :: loadRow cs fs

/-- `LOAD DATA LOCAL`: each line becomes a row, its fields separated by tabs; a row whose unique
key is already in the table is skipped (with `LOCAL`, duplicates are ignored). -/
def loadLines (t : Table) : List (List Char) → List Row → List Row
  | [], rows => rows
  | line :: rest, rows =>
    let row := loadRow t.cols (splitOn '\t' line)
    if rows.any (fun r => sameKey t r row) then loadLines t rest rows
    else loadLines t rest (rows ++ [row])

/-- `ON DUPLICATE KEY UPDATE col=VALUES(col)`: the row with the key of `row` gets the value
`row` has in column `i`; without such a row, `row` is appended. -/
def upsertRow (t : Table) (i : Nat) (row : Row) : List Row → List Row
  | [] => [row]
  | r :: rs =>
    if sameKey t r row then r.set i (row.getD i (.int 0)) :: rs
    else r :: upsertRow t i row rs

/-- Inserts `row` into a list sorted by column `i`, largest first, before the first row that is
not larger. -/
def insertDesc (i : Nat) (row : Row) : List Row → List Row
  | [] => [row]
  | r :: rs =>
    if Value.num (r.getD i (.int 0)) ≤ Value.num (row.getD i (.int 0)) then row :: r :: rs
    else r :: insertDesc i row rs

/-- `ORDER BY` column `i` `DESC` (rows with equal values keep their order). -/
def sortDesc (i : Nat) : List Row → List Row
  | [] => []
  | r :: rs => insertDesc i r (sortDesc i rs)

/-- The names of a statement checked as the server does when it parses and resolves it. -/
def prepare (s : Store) : Stmt → Option Err
  | .createTable _ _ (.uniqueKeyBare _ col) => some (.parseFailure col)
  | .createTable _ cols (.uniqueKey _ key) =>
    match key.find? (fun k => (colIndex cols k).isNone) with
    | some k => some (.unknownColumn k)
    | none => none
  | .loadDataLocalInfile _ name =>
    match s.table name with
    | none => some (.noSuchTable name)
    | some _ => none
  | .insertOnDuplicateKeyUpdate name n upd =>
    match s.table name with
    | none => some (.noSuchTable name)
    | some t =>
      match colIndex t.cols upd with
      | none => some (.unknownColumn upd)
      | some _ => if t.cols.length = n then none else some .fieldCount
  | .selectCount name =>
    match s.table name with
    | none => some (.noSuchTable name)
    | some _ => none
  | .selectWhere col name whereCol _ orderBy =>
    match s.table name with
    | none => some (.noSuchTable name)
    | some t =>
      match (col :: whereCol :: orderBy.toList).find? (fun c => (colIndex t.cols c).isNone) with
      | some c => some (.unknownColumn c)
      | none => none

/-- Runs a statement that changes the database, once its names are resolved. -/
def run (s : Store) : Stmt → List Value → Store × Option Err
  | .createTable name cols (.uniqueKey _ key), _ =>
    match s.table name with
    | some _ => (s, some (.tableExists name))
    | none => (⟨s.tables ++ [⟨name, cols, key, []⟩], s.readers⟩, none)
  | .createTable _ _ (.uniqueKeyBare _ col), _ => (s, some (.parseFailure col))
  | .loadDataLocalInfile reader name, _ =>
    match s.table name with
    | none => (s, some (.noSuchTable name))
    | some t =>
      match s.readers.lookup reader with
      | none => (s, some (.noReader reader))
      | some data => (s.setRows name (loadLines t (linesOf data.data) t.rows), none)
  | .insertOnDuplicateKeyUpdate name _ upd, args =>
    match s.table name with
    | none => (s, some (.noSuchTable name))
    | some t =>
      match colIndex t.cols upd with
      | none => (s, some (.unknownColumn upd))
      | some i =>
        match coerceRow t.cols args with
        | .error e => (s, some e)
        | .ok row => (s.setRows name (upsertRow t i row t.rows), none)
  | .selectWhere _ _ _ _ _, _ => (s, none)
  | .selectCount _, _ => (s, none)

/-- The rows `SELECT col ... WHERE whereCol = v [ORDER BY orderBy DESC]` returns, the columns
given by position. -/
def selectRows (t : Table) (ci wi : Nat) (v : Value) (orderBy : Option Nat) : List Row :=
  let hits := t.rows.filter (fun r => valEq (r.getD wi (.int 0)) v)
  let sorted :=
    match orderBy with
    | none => hits
    | some oi => sortDesc oi hits
  sorted.map (fun r => [r.getD ci (.int 0)])

/-- Runs a statement that returns rows, once its names are resolved. -/
def select (s : Store) : Stmt → List Value → Except Err (List Row)
  | .selectCount name, _ =>
    match s.table name with
    | none => .error (.noSuchTable name)
    | some t => .ok [[.int t.rows.length]]
  | .selectWhere col name whereCol rhs orderBy, args =>
    match s.table name with
    | none => .error (.noSuchTable name)
    | some t =>
      match colIndex t.cols col, colIndex t.cols whereCol, rhs, args with
      | none, _, _, _ => .error (.unknownColumn col)
      | some _, none, _, _ => .error (.unknownColumn whereCol)
      | some _, some _, .placeholder, [] => .error (.parseFailure "?")
      | some ci, some wi, .placeholder, v :: _ =>
        match orderBy with
        | none => .ok (selectRows t ci wi v none)
        | some ob =>
          match colIndex t.cols ob with
          | none => .error (.unknownColumn ob)
          | some oi => .ok (selectRows t ci wi v (some oi))
      | some ci, some wi, .strLit lit, _ =>
        match orderBy with
        | none => .ok (selectRows t ci wi (.str lit) none)
        | some ob =>
          match colIndex t.cols ob with
          | none => .error (.unknownColumn ob)
          | some oi => .ok (selectRows t ci wi (.str lit) (some oi))
  | _, _ => .error .notAQuery

/-- What `database/sql` and go-sql-driver do with a statement and its arguments before the server
runs it: without arguments the text is sent as it is, and a `?` in it is not SQL; with arguments
the statement is prepared on the server, which resolves its names, and the number of arguments
must then be the number of placeholders. -/
def precheck (s : Store) (stmt : Stmt) (args : List Value) : Option Err :=
  if args.isEmpty then
    if numInput stmt = 0 then prepare s stmt else some (.parseFailure "?")
  else
    match prepare s stmt with
    | some e => some e
    | none =>
      if args.length = numInput stmt then none else some (.argCount (numInput stmt) args.length)

/-- The connection to MySQL through `database/sql` and go-sql-driver. Executing a prepared
statement and executing the statement text with arguments go the same way. -/
def driver : Driver Store where
  Exec s stmt args :=
    match precheck s stmt args with
    | some e => (s, some e)
    | none => run s stmt args
  Query s stmt args :=
    match precheck s stmt args with
    | some e => .error e
    | none => select s stmt args
  Prepare s stmt := prepare s stmt
  RegisterReaderHandler s name data :=
    ⟨s.tables, (name, data) :: s.readers.filter (fun p => p.1 ≠ name)⟩

end MySQL

/-! ## Schema named by the statements -/

/-- The table a `CREATE TABLE` declares, with its column names. -/
def declares : Stmt → Option (String × List String)
  | .createTable table cols _ => some (table, cols.map (·.name))
  | _ => none

/-- The table a statement reads or writes, with the columns it names. -/
def namesOf : Stmt → Option (String × List String)
  | .createTable _ _ _ => none
  | .selectWhere col table whereCol _ orderBy => some (table, col :: whereCol :: orderBy.toList)
  | .selectCount table => some (table, [])
  | .loadDataLocalInfile _ table => some (table, [])
  | .insertOnDuplicateKeyUpdate table _ updCol => some (table, [updCol])

/-- The statements of `Init`, in order. -/
def initStmts : List Stmt :=
  [createRatings, createRecommends, createItems]

/-- The tables and columns `Init` asks the server to create. -/
def initSchema : List (String × List String) :=
  initStmts.filterMap declares

/-- The statement of each of the other operations that issues one. -/
def operationStmts : List (String × Stmt) :=
  [("GetMeta", selectMeta), ("CurrentRatings", selectCountRatings),
    ("GetRecommends", selectRecommends), ("UpdateRecommends", loadRecommends),
    ("PutRating", upsertRating)]

/-- The names in a statement that `schema` does not have: the table when it is missing,
otherwise the missing columns as `table.column`. -/
def undeclared (schema : List (String × List String)) (stmt : Stmt) : List String :=
  match namesOf stmt with
  | none => []
  | some (table, cols) =>
    match schema.lookup table with
    | none => [table]
    | some declared => (cols.filter (fun c => !declared.contains c)).map (fun c => table ++ "." ++ c)

/-! ## Delimited text sources, in the words of the specification -/

/-- Follows the spec's words, not the code (the code has no reader of delimited text): the records
of "a delimited text source with a configurable delimiter and optional header row" are its lines,
without the first one when there is a header, each split at the delimiter. -/
def specRecords (content : String) (sep : Char) (header : Bool) : List (List String) :=
  let lines := MySQL.linesOf content.data
  let body := if header then lines.drop 1 else lines
  body.map (fun l => (MySQL.splitOn sep l).map String.mk)

/-- Follows the spec's words: a record of integers read as the row it would be in a table. -/
def specRow (record : List String) : Row :=
  record.map (fun f => Value.int ((parseInt f.data).getD 0))

/-! ## Go `float64` -/

/-- A Go `float64`: a finite value (a rational; the operations below produce only rationals that
are doubles), an infinity with its sign, or NaN. The sign of zero is not kept: no comparison
sees it. -/
inductive F64
  | fin (q : ℚ)
  | inf (negative : Bool)
  | nan
  deriving DecidableEq

/-- The power of two with exponent `e`. -/
def pow2 (e : Int) : ℚ :=
  if 0 ≤ e then ((2 ^ e.toNat : Nat) : ℚ) else 1 / ((2 ^ (-e).toNat : Nat) : ℚ)

/-- Position of the highest set bit of `n` (`0` for `n < 2`), with `fuel` halvings allowed. -/
def log2Fuel : Nat → Nat → Nat
  | 0, _ => 0
  | fuel + 1, n => if 2 ≤ n then log2Fuel fuel (n / 2) + 1 else 0

/-- The exponent of a non-zero rational: the largest `e` with `2^e ≤ |q|`. -/
def ilog2 (q : ℚ) : Int :=
  let e0 : Int := (log2Fuel q.num.natAbs q.num.natAbs : Int) - (log2Fuel q.den q.den : Int)
  if pow2 e0 ≤ |q| then e0 else e0 - 1

/-- Rounds a real result to `float64`, to nearest with ties to even: 53 significant bits, the
spacing below `2^-1022` fixed at `2^-1074`, and an infinity from `2^1024` on. -/
def F64.round (q : ℚ) : F64 :=
  if q = 0 then .fin 0
  else
    let e := max (ilog2 q) (-1022)
    let quantum := pow2 (e - 52)
    let r := (MySQL.roundHalfEven (q / quantum) : ℚ) * quantum
    if pow2 1024 ≤ |r| then .inf (decide (q < 0)) else .fin r

/-- Float `a + b`. -/
def F64.add : F64 → F64 → F64
  | .nan, _ => .nan
  | _, .nan => .nan
  | .inf a, .inf b => if a = b then .inf a else .nan
  | .inf a, .fin _ => .inf a
  | .fin _, .inf b => .inf b
  | .fin a, .fin b => F64.round (a + b)

/-- Float `-a`. -/
def F64.neg : F64 → F64
  | .nan => .nan
  | .inf a => .inf (!a)
  | .fin a => .fin (-a)

/-- Float `a - b`. -/
def F64.sub (a b : F64) : F64 :=
  F64.add a (F64.neg b)

/-- Float `a / b`, the divisor's zero taken as positive. -/
def F64.div : F64 → F64 → F64
  | .nan, _ => .nan
  | _, .nan => .nan
  | .inf _, .inf _ => .nan
  | .inf a, .fin b => .inf (a != decide (b < 0))
  | .fin _, .inf _ => .fin 0
  | .fin a, .fin b =>
    if b = 0 then (if a = 0 then .nan else .inf (decide (a < 0))) else F64.round (a / b)

/-- Float comparison `a < b`: false when either side is NaN. -/
def F64.lt : F64 → F64 → Bool
  | .nan, _ => false
  | _, .nan => false
  | .inf a, .inf b => a && !b
  | .inf a, .fin _ => a
  | .fin _, .inf b => !b
  | .fin a, .fin b => a < b

/-- Float comparison `a > b`. -/
def F64.gt (a b : F64) : Bool :=
  F64.lt b a

/-! ## `perf_test.go` -/

/-- Line 12: `ratingEpsilon = 0.005`, as the `float64` it becomes in `expectations[i]+...`. -/
def ratingEpsilon : F64 := F64.round 0.005

/-- Line 13: `rankingEpsilon = 0.008`, as the `float64` it becomes in `expectations[i]-...`. -/
def rankingEpsilon : F64 := F64.round 0.008

/-- One entry of what `CrossValidate` returns: the test scores of one evaluator, one per fold. -/
structure CrossValidateResult where
  TestScore : List F64

/-- How a test function ends. -/
inductive TestResult
  /-- It ran to the end without `Fatalf`. -/
  | pass
  /-- `t.Fatalf` at evaluator index `i` stopped it. -/
  | fatal (i : Nat)
  /-- An index out of range stopped it with a run-time panic. -/
  | indexPanic (i : Nat)
  deriving DecidableEq

/-- The loop of `EvaluateRegression` over `evalNames`, from index `i` on. `Mean` is
`stat.Mean(x, nil)` of the gonum library, which is not part of the repository. -/
def regressionLoop (Mean : List F64 → F64) (results : List CrossValidateResult)
    (expectations : List F64) : List String → Nat → TestResult
  | [], _ => .pass
  | _ :: names, i =>
    match results[i]? with
    | none => .indexPanic i
    | some r =>
      let accuracy := Mean r.TestScore
      match expectations[i]? with
      | none => .indexPanic i
      | some e =>
        if F64.gt accuracy (F64.add e ratingEpsilon) then .fatal i
        else regressionLoop Mean results expectations names (i + 1)

/-- `EvaluateRegression`, given `stat.Mean` and what
`CrossValidate(algo, dataSet, evaluators, splitter, 0)` returned. -/
def EvaluateRegression (Mean : List F64 → F64) (evalNames : List String)
    (results : List CrossValidateResult) (expectations : List F64) : TestResult :=
  regressionLoop Mean results expectations evalNames 0

/-- The loop of `EvaluateRank` over `evalNames`, from index `i` on. -/
def rankLoop (Mean : List F64 → F64) (results : List CrossValidateResult)
    (expectations : List F64) : List String → Nat → TestResult
  | [], _ => .pass
  | _ :: names, i =>
    match results[i]? with
    | none => .indexPanic i
    | some r =>
      let accuracy := Mean r.TestScore
      match expectations[i]? with
      | none => .indexPanic i
      | some e =>
        if F64.lt accuracy (F64.sub e rankingEpsilon) then .fatal i
        else rankLoop Mean results expectations names (i + 1)

/-- `EvaluateRank`, given `stat.Mean` and what
`CrossValidate(algo, dataSet, evaluators, splitter, 0)` returned. -/
def EvaluateRank (Mean : List F64 → F64) (evalNames : List String)
    (results : List CrossValidateResult) (expectations : List F64) : TestResult :=
  rankLoop Mean results expectations evalNames 0

/-- A mean computed the plain way in `float64`: the scores added one by one from `0`, the sum
divided by the length. Used where a concrete `stat.Mean` is needed; on a list of one or two
scores every order of summing gives the same sum. -/
def seqMean (x : List F64) : F64 :=
  F64.div (x.foldl F64.add (.fin 0)) (F64.round x.length)

/-- The list arguments of one call of `EvaluateRegression` or `EvaluateRank` in a test. -/
structure Call where
  /-- The test function making the call. -/
  test : String
  /-- Whether the callee is `EvaluateRank`. -/
  rank : Bool
  evalNames : List String
  /-- The evaluators, each by the expression that builds it. -/
  evaluators : List String
  expectations : List ℚ

/-- The `evalNames` and `evaluators` of every regression test. -/
def regressionCall (test : String) (expectations : List ℚ) : Call :=
  ⟨test, false, ["RMSE", "MAE"], ["RMSE", "MAE"], expectations⟩

/-- Lines 155-169. -/
def TestItemPop : Call :=
  ⟨"TestItemPop", true,
    ["Prec@5", "Prec@10", "Recall@5", "Recall@10", "MAP", "NDCG", "MRR"],
    ["NewPrecision(5)", "NewPrecision(10)", "NewRecall(5)", "NewRecall(10)",
      "NewMAP(math.MaxInt32)", "NewNDCG(math.MaxInt32)", "NewMRR(math.MaxInt32)"],
    [0.211, 0.190, 0.070, 0.116, 0.135, 0.477, 0.417]⟩

/-- Lines 171-193. -/
def TestSVD_BPR : Call :=
  ⟨"TestSVD_BPR", true,
    ["Prec@5", "Prec@10", "Recall@5", "Recall@10", "MAP", "NDCG"],
    ["NewPrecision(5)", "NewPrecision(10)", "NewRecall(5)", "NewRecall(10)",
      "NewMAP(math.MaxInt32)", "NewNDCG(math.MaxInt32)"],
    [0.378, 0.321, 0.129, 0.209, 0.260, 0.601]⟩

/-- Lines 195-214. -/
def TestWRMF : Call :=
  ⟨"TestWRMF", true,
    ["Prec@5", "Prec@10", "Recall@5", "Recall@10", "MAP", "NDCG"],
    ["NewPrecision(5)", "NewPrecision(10)", "NewRecall(5)", "NewRecall(10)",
      "NewMAP(math.MaxInt32)", "NewNDCG(math.MaxInt32)", "NewMRR(math.MaxInt32)"],
    [0.416, 0.353, 0.142, 0.227, 0.287, 0.624]⟩

/-- Every call of `EvaluateRegression` and `EvaluateRank` in `perf_test.go`, in file order. -/
def perfCalls : List Call :=
  [regressionCall "TestBaseLine" [0.944, 0.748],
    regressionCall "TestSVD" [0.934, 0.737],
    regressionCall "TestNMF" [0.963, 0.758],
    regressionCall "TestSlopeOne" [0.946, 0.743],
    regressionCall "TestKNN" [0.98, 0.774],
    regressionCall "TestKNNWithMean" [0.951, 0.749],
    regressionCall "TestKNNZScore" [0.951, 0.746],
    regressionCall "TestKNNBaseLine" [0.931, 0.733],
    regressionCall "TestCoClustering" [0.963, 0.753],
    regressionCall "TestKNN_UserBased_LibRec" [0.944, 0.737],
    regressionCall "TestKNN_ItemBased_LibRec" [0.924, 0.723],
    regressionCall "TestSlopeOne_LibRec" [0.940, 0.739],
    regressionCall "TestSVD_LibRec" [0.911, 0.718],
    regressionCall "TestNMF_LibRec" [0.859, 0.643],
    regressionCall "TestSVDpp_LibRec" [0.911, 0.718],
    TestItemPop, TestSVD_BPR, TestWRMF]

/-- Whether the three lists of a call have one length. -/
def Call.sameLength (c : Call) : Bool :=
  c.evalNames.length = c.evaluators.length ∧ c.evaluators.length = c.expectations.length

/-! ## States and connections used as examples -/

/-- The database left by `Init` on an empty MySQL server. -/
def MySQL.afterInit : MySQL.Store :=
  (Init MySQL.driver MySQL.Store.empty).1

/-- The database `Init` leaves, with a table `status(name, value)` added that holds the entries
`version = 3` and `last_count = 0`. -/
def MySQL.withStatus : MySQL.Store :=
  ⟨MySQL.afterInit.tables ++
      [⟨"status", [⟨"name", .text⟩, ⟨"value", .int⟩], ["name"],
        [[.str "version", .int 3], [.str "last_count", .int 0]]⟩],
    []⟩

/-- A connection on which every query succeeds and returns no row, and nothing else fails. -/
def noRowDriver : Driver Unit where
  Exec _ _ _ := ((), none)
  Query _ _ _ := .ok []
  Prepare _ _ := none
  RegisterReaderHandler _ _ _ := ()

/-- A connection on which every query returns the one row `[v]`. -/
def oneRowDriver (v : Value) : Driver Unit where
  Exec _ _ _ := ((), none)
  Query _ _ _ := .ok [[v]]
  Prepare _ _ := none
  RegisterReaderHandler _ _ _ := ()

/-- Follows the spec's words, not the loop: one record of a recommendation list is the user, the
item and the rank position in decimal, separated by tabs and ended by a newline. -/
def specRecord (u item : Int) (i : Nat) : String :=
  fmtD u ++ "\t" ++ fmtD item ++ "\t" ++ fmtD (i : Int) ++ "\n"

/-- Concatenation of texts, first to last. -/
def concatAll : List String → String
  | [] => ""
  | r :: rs => r ++ concatAll rs

/-! ## Theorems -/

/-! ### `Init` on MySQL -/

/-- On an empty MySQL server `Init` creates `ratings` and `recommends`, and its third statement is
rejected. -/
theorem Init_on_empty :
    Init MySQL.driver MySQL.Store.empty =
      (⟨[⟨"ratings", [⟨"user_id", .int⟩, ⟨"item_id", .int⟩, ⟨"rating", .int⟩],
            ["user_id", "item_id"], []⟩,
          ⟨"recommends", [⟨"user_id", .int⟩, ⟨"item_id", .int⟩, ⟨"ranking", .double⟩],
            ["user_id", "item_id"], []⟩], []⟩,
        some (.parseFailure "item_id")) := by
  decide

/-! ### The recommends stream -/

theorem writeRecords_eq (u : Int) (items : List Int) (i : Nat) (buf : String) :
    writeRecords u items i buf =
      buf ++ concatAll ((items.enumFrom i).map (fun p => specRecord u p.2 p.1)) := by
  induction items generalizing i buf with
  | nil => simp [writeRecords, concatAll]
  | cons item rest ih =>
    simp [writeRecords, concatAll, List.enumFrom, ih, sprintfRecord, specRecord, fmtD,
      String.append_assoc]

theorem digitVal_digitChar (m : Nat) (h : m < 10) : digitVal (Nat.digitChar m) = some m := by
  interval_cases m <;> decide

theorem digitChar_ne_sign (m : Nat) (h : m < 10) :
    Nat.digitChar m ≠ '-' ∧ Nat.digitChar m ≠ '+' := by
  interval_cases m <;> decide

theorem toDigitsCore_spec (fuel : Nat) : ∀ (n : Nat) (ds : List Char), n < fuel →
    ∃ L : List Char, Nat.toDigitsCore 10 fuel n ds = L ++ ds ∧
      (∃ m, m < 10 ∧ L.head? = some (Nat.digitChar m)) ∧
      ∀ rest acc, parseDigits (L ++ rest) acc = parseDigits rest (acc * 10 ^ L.length + n) := by
  induction fuel with
  | zero => intro n ds h; omega
  | succ fuel ih =>
    intro n ds hn
    unfold Nat.toDigitsCore
    by_cases h0 : n / 10 = 0
    · simp only [h0, if_true]
      have hlt : n < 10 := by omega
      refine ⟨[Nat.digitChar (n % 10)], rfl, ⟨n % 10, Nat.mod_lt _ (by decide), rfl⟩, ?_⟩
      intro rest acc
      simp only [List.singleton_append, parseDigits, digitVal_digitChar _ (Nat.mod_lt _ (by decide)),
        List.length_singleton, pow_one]
      congr 1
      omega
    · simp only [h0, if_false]
      obtain ⟨L, hL, hhead, hparse⟩ := ih (n / 10) (Nat.digitChar (n % 10) :: ds) (by omega)
      refine ⟨L ++ [Nat.digitChar (n % 10)], by simp [hL], ?_, ?_⟩
      · obtain ⟨m, hm, hh⟩ := hhead
        refine ⟨m, hm, ?_⟩
        cases L with
        | nil => simp at hh
        | cons a t => simpa using hh
      · intro rest acc
        rw [List.append_assoc, hparse]
        simp only [List.singleton_append, parseDigits,
          digitVal_digitChar _ (Nat.mod_lt _ (by decide)), List.length_append,
          List.length_singleton, pow_succ]
        congr 1
        have := Nat.div_add_mod n 10
        nlinarith [this]

theorem parseNat_repr (n : Nat) :
    parseNat (Nat.repr n).data = some n ∧
      ∃ m c cs, m < 10 ∧ c = Nat.digitChar m ∧ (Nat.repr n).data = c :: cs := by
  obtain ⟨L, hL, ⟨m, hm, hh⟩, hparse⟩ := toDigitsCore_spec (n + 1) n [] (by omega)
  have hdata : (Nat.repr n).data = L := by
    simp [Nat.repr, Nat.toDigits, hL, List.asString]
  rw [hdata]
  cases L with
  | nil => simp at hh
  | cons c cs =>
    refine ⟨?_, m, c, cs, hm, by simpa using hh, rfl⟩
    have := hparse [] 0
    simpa [parseNat, parseDigits] using this

/-- The text `%d` gives for an integer reads back as that integer. -/
theorem parseInt_fmtD (n : Int) : parseInt (fmtD n).data = some n := by
  cases n with
  | ofNat k =>
    obtain ⟨h1, m, c, cs, hm, hc, hdata⟩ := parseNat_repr k
    obtain ⟨hminus, hplus⟩ := digitChar_ne_sign m hm
    simp only [fmtD]
    rw [hdata] at h1 ⊢
    rw [← hc] at hminus hplus
    unfold parseInt
    split
    · rename_i heq
      simp at heq
      exact absurd heq.1 hminus
    · rename_i heq
      simp at heq
      exact absurd heq.1 hplus
    · simp [h1]
  | negSucc k =>
    obtain ⟨h1, -⟩ := parseNat_repr (k + 1)
    have : (fmtD (Int.negSucc k)).data = '-' :: (Nat.repr (k + 1)).data := by
      simp [fmtD]
    rw [this]
    simp only [parseInt, h1, Option.map_some']
    rfl

/-- C2: the data `UpdateRecommends(u, items)` registers for the load into `recommends` is the
concatenation, in list order, of one record per item: there are `len(items)` records, the one at
index `i` is `u`, `items[i]` and `i` in decimal separated by tabs and ended by a newline, and for
the empty list the data is empty; that data is what the `LOAD DATA` statement then reads, and
each numeral in it reads back as the integer it renders. -/
theorem UpdateRecommends_stream {σ : Type} (d : Driver σ) (s : σ) (u : Int) (items : List Int) :
    UpdateRecommends d s u items =
        d.Exec (d.RegisterReaderHandler s "update_recommends" (recommendsData u items))
          loadRecommends [] ∧
      recommendsData u items = concatAll (items.enum.map (fun p => specRecord u p.2 p.1)) ∧
      (items.enum.map (fun p => specRecord u p.2 p.1)).length = items.length ∧
      (∀ i, (items.enum.map (fun p => specRecord u p.2 p.1)).get? i =
        (items.get? i).map (fun item =>
          fmtD u ++ "\t" ++ fmtD item ++ "\t" ++ fmtD (i : Int) ++ "\n")) ∧
      recommendsData u [] = "" ∧
      (∀ n : Int, parseInt (fmtD n).data = some n) := by
  refine ⟨rfl, ?_, by simp, ?_, rfl, parseInt_fmtD⟩
  · simp [recommendsData, writeRecords_eq, List.enum]
  · intro i
    simp only [List.get?_eq_getElem?, List.getElem?_map, List.enum, List.getElem?_enumFrom,
      Option.map_map]
    cases items[i]? <;> simp [specRecord]

/-! ### Reading a recommendation list back -/

/-- On every MySQL database whose `recommends` table has the columns `Init` gives it, whatever its
rows, `GetRecommends` returns a nil slice and the unknown-column error. -/
theorem GetRecommends_unknownColumn (others : List MySQL.Table) (rows : List Row)
    (readers : List (String × String)) (userId : Int)
    (h : ∀ t ∈ others, t.name ≠ "recommends") :
    GetRecommends MySQL.driver
        ⟨others ++ [⟨"recommends", [⟨"user_id", .int⟩, ⟨"item_id", .int⟩, ⟨"ranking", .double⟩],
          ["user_id", "item_id"], rows⟩], readers⟩ userId =
      (none, some (.unknownColumn "rating")) := by
  have hfind : (others ++ [(⟨"recommends",
      [⟨"user_id", .int⟩, ⟨"item_id", .int⟩, ⟨"ranking", .double⟩],
      ["user_id", "item_id"], rows⟩ : MySQL.Table)]).find? (fun t => t.name = "recommends") =
      some ⟨"recommends", [⟨"user_id", .int⟩, ⟨"item_id", .int⟩, ⟨"ranking", .double⟩],
        ["user_id", "item_id"], rows⟩ := by
    rw [List.find?_append]
    have : others.find? (fun t => decide (t.name = "recommends")) = none := by
      rw [List.find?_eq_none]
      intro t ht
      simpa using h t ht
    simp [this]
  simp [GetRecommends, MySQL.driver, selectRecommends, MySQL.precheck, MySQL.prepare,
    MySQL.Store.table, hfind, MySQL.colIndex]

theorem GetRecommends_unknownColumn_witness :
    GetRecommends MySQL.driver
        ⟨[⟨"ratings", [⟨"user_id", .int⟩, ⟨"item_id", .int⟩, ⟨"rating", .int⟩],
            ["user_id", "item_id"], []⟩] ++
          [⟨"recommends", [⟨"user_id", .int⟩, ⟨"item_id", .int⟩, ⟨"ranking", .double⟩],
            ["user_id", "item_id"], [[.int 1, .int 10, .double 0]]⟩], []⟩ 1 =
      (none, some (.unknownColumn "rating")) :=
  GetRecommends_unknownColumn _ _ _ 1 (by decide)

/-- C1, at user 1 and the list `[10, 20]` on the database `Init` leaves: user 1 has no row,
`UpdateRecommends` succeeds and stores `(1, 10, 0)` and `(1, 20, 1)`, and `GetRecommends(1)` then
returns no list and the error for the unknown column `rating` instead of `[10, 20]` and nil. -/
theorem GetRecommends_after_UpdateRecommends :
    (MySQL.afterInit.table "recommends").map (·.rows) = some [] ∧
      (UpdateRecommends MySQL.driver MySQL.afterInit 1 [10, 20]).2 = none ∧
      ((UpdateRecommends MySQL.driver MySQL.afterInit 1 [10, 20]).1.table "recommends").map
          (·.rows) =
        some [[.int 1, .int 10, .double 0], [.int 1, .int 20, .double 1]] ∧
      GetRecommends MySQL.driver (UpdateRecommends MySQL.driver MySQL.afterInit 1 [10, 20]).1 1 =
        (none, some (.unknownColumn "rating")) := by
  decide

/-- With the column that exists, `ranking`, in place of `rating`, the same query on the same
database would list user 1's items worst-ranked first. -/
theorem orderBy_ranking_desc_reverses :
    (MySQL.driver.Query (UpdateRecommends MySQL.driver MySQL.afterInit 1 [10, 20]).1
        (.selectWhere "item_id" "recommends" "user_id" .placeholder (some "ranking"))
        [.int 1]).toOption =
      some [[.int 20], [.int 10]] := by
  decide!

/-! ### Operations without an implementation -/

/-- C3, at `SetMeta("version", 1)` on an empty MySQL server: the call panics, it returns no
error value. -/
theorem SetMeta_panics_at_version :
    SetMeta MySQL.driver MySQL.Store.empty "version" 1 = .panic "Not implemented" ∧
      GetRandom MySQL.driver MySQL.Store.empty = .panic "Not implemented" := by
  decide

/-- C3 as amended: `SetMeta`, `GetRandom`, `GetPopular` and `GetList` panic with the message
"Not implemented" on every connection, in every state and for every input. -/
theorem unimplemented_panic {σ : Type} (d : Driver σ) (s : σ) (name : String) (val : Int) :
    SetMeta d s name val = .panic "Not implemented" ∧
      GetRandom d s = .panic "Not implemented" ∧
      GetPopular d s = .panic "Not implemented" ∧
      GetList d s = .panic "Not implemented" :=
  ⟨rfl, rfl, rfl, rfl⟩

/-! ### Bulk loading -/

/-- C4, at a source holding the one record `1,2,3` (resp. `7`) and the database `Init` leaves:
the loader returns nil and the record is not in the table afterwards. -/
theorem LoadFromCSV_loads_nothing :
    specRecords "1,2,3\n" ',' false = [["1", "2", "3"]] ∧
      (LoadRatingsFromCSV MySQL.driver MySQL.afterInit "ratings.csv" "," false).2 = none ∧
      ((LoadRatingsFromCSV MySQL.driver MySQL.afterInit "ratings.csv" "," false).1.tables.all
        (fun t => !t.rows.contains (specRow ["1", "2", "3"]))) = true ∧
      specRecords "7\n" ',' false = [["7"]] ∧
      (LoadItemsFromCSV MySQL.driver MySQL.afterInit "items.csv" "," false).2 = none ∧
      ((LoadItemsFromCSV MySQL.driver MySQL.afterInit "items.csv" "," false).1.tables.all
        (fun t => !t.rows.contains (specRow ["7"]))) = true := by
  decide

/-- C4 as amended: `LoadRatingsFromCSV` and `LoadItemsFromCSV` return a nil error and leave the
store as it was, for every connection, state, file name, delimiter and header flag. -/
theorem LoadFromCSV_noop {σ : Type} (d : Driver σ) (s : σ) (fileName sep : String)
    (header : Bool) :
    LoadRatingsFromCSV d s fileName sep header = (s, none) ∧
      LoadItemsFromCSV d s fileName sep header = (s, none) :=
  ⟨rfl, rfl⟩

/-! ### Storing a rating -/

/-- C6, at `PutRating(1, 2, 3.25)` on the database `Init` leaves: the call returns nil and the
row of the pair `(1, 2)` holds the integer `3`, not `3.25`; the count of ratings is then `1`. -/
theorem PutRating_stores_integer :
    (PutRating MySQL.driver MySQL.afterInit 1 2 (13 / 4)).2 = none ∧
      ((PutRating MySQL.driver MySQL.afterInit 1 2 (13 / 4)).1.table "ratings").map (·.rows) =
        some [[.int 1, .int 2, .int 3]] ∧
      CurrentRatings MySQL.driver (PutRating MySQL.driver MySQL.afterInit 1 2 (13 / 4)).1 =
        .ret (1, none) := by
  decide!

/-- The rounding of an integral rating is the rating. -/
theorem roundHalfEven_intCast (n : Int) : MySQL.roundHalfEven (n : ℚ) = n := by
  simp [MySQL.roundHalfEven]

/-- The table found by name after its rows were replaced. -/
theorem table_setRows (s : MySQL.Store) (name : String) (t : MySQL.Table) (rows : List Row)
    (h : s.table name = some t) :
    (s.setRows name rows).table name = some ⟨t.name, t.cols, t.unique, rows⟩ := by
  obtain ⟨tables, readers⟩ := s
  simp only [MySQL.Store.table, MySQL.Store.setRows] at h ⊢
  induction tables with
  | nil => simp at h
  | cons a rest ih =>
    by_cases ha : a.name = name
    · simp [List.find?, ha] at h ⊢
      subst h
      simp [ha]
    · simp only [List.map_cons, if_neg ha]
      simp only [List.find?, ha, decide_False] at h ⊢
      exact ih h

/-- On every MySQL database whose `ratings` table is the one `Init` declares, with arguments in
the range of an `int` column, `PutRating` returns nil and upserts the row of the user, the item
and the rating rounded to an integer. -/
theorem PutRating_on_ratings (s : MySQL.Store) (rows : List Row) (u i : Int) (r : ℚ)
    (ht : s.table "ratings" =
      some ⟨"ratings", [⟨"user_id", .int⟩, ⟨"item_id", .int⟩, ⟨"rating", .int⟩],
        ["user_id", "item_id"], rows⟩)
    (hu : MySQL.inIntRange u = true) (hi : MySQL.inIntRange i = true)
    (hr : MySQL.inIntRange (MySQL.roundHalfEven r) = true) :
    PutRating MySQL.driver s u i r =
      (s.setRows "ratings"
        (MySQL.upsertRow ⟨"ratings", [⟨"user_id", .int⟩, ⟨"item_id", .int⟩, ⟨"rating", .int⟩],
            ["user_id", "item_id"], rows⟩ 2
          [.int u, .int i, .int (MySQL.roundHalfEven r)] rows), none) := by
  simp [PutRating, MySQL.driver, upsertRating, MySQL.prepare, MySQL.precheck, MySQL.run, ht,
    MySQL.colIndex, MySQL.numInput, MySQL.coerceRow, MySQL.coerce, MySQL.storeInt, hu, hi, hr]

/-- An upsert adds one row when no row has the key, and none otherwise. -/
theorem upsertRow_length (t : MySQL.Table) (i : Nat) (row : Row) (rows : List Row) :
    (MySQL.upsertRow t i row rows).length =
      if rows.any (fun r => MySQL.sameKey t r row) then rows.length else rows.length + 1 := by
  induction rows with
  | nil => simp [MySQL.upsertRow]
  | cons a rest ih =>
    by_cases ha : MySQL.sameKey t a row = true
    · simp [MySQL.upsertRow, ha]
    · simp only [Bool.not_eq_true] at ha
      simp only [MySQL.upsertRow, ha, List.any_cons, Bool.false_or, List.length_cons,
        Bool.false_eq_true, if_false]
      rw [ih]
      split <;> rfl

/-! ### Metadata -/

/-- On MySQL the statement of `GetMeta` has no placeholder and is sent with one argument: on
every database and for every name `GetMeta` returns `0` and an error, never a stored value. -/
theorem GetMeta_on_MySQL (s : MySQL.Store) (name : String) :
    ∃ err, GetMeta MySQL.driver s name = .ret (0, some err) := by
  simp only [GetMeta, MySQL.driver, MySQL.precheck, selectMeta, MySQL.numInput, List.isEmpty_cons,
    Bool.false_eq_true, if_false, List.length_singleton]
  cases h : MySQL.prepare s (.selectWhere "value" "status" "name" (.strLit "?") none) with
  | some e => exact ⟨e, rfl⟩
  | none => exact ⟨.argCount 0 1, rfl⟩

/-- C7, at `GetMeta("version")`, `Version()` and `LastRatings()` on a database whose `status`
table holds `version = 3` and `last_count = 0`: each returns `0` and the error "expected 0
arguments, got 1" instead of the stored value and nil; on the database `Init` leaves, which has no
`status` table, `GetMeta` returns the error for the missing table. -/
theorem GetMeta_quoted_placeholder :
    (MySQL.withStatus.table "status").map (·.rows) =
        some [[.str "version", .int 3], [.str "last_count", .int 0]] ∧
      GetMeta MySQL.driver MySQL.withStatus "version" = .ret (0, some (.argCount 0 1)) ∧
      Version MySQL.driver MySQL.withStatus = .ret (0, some (.argCount 0 1)) ∧
      LastRatings MySQL.driver MySQL.withStatus = .ret (0, some (.argCount 0 1)) ∧
      GetMeta MySQL.driver MySQL.afterInit "version" = .ret (0, some (.noSuchTable "status")) := by
  decide

/-- On a connection where the query succeeds and returns no row, `GetMeta` panics. -/
theorem GetMeta_panics_without_row :
    noRowDriver.Query () selectMeta [.str "version"] = .ok [] ∧
      GetMeta noRowDriver () "version" = .panic "Get meta data failed" :=
  ⟨rfl, rfl⟩

/-- What `GetMeta` does with each answer of the connection: when the query fails it returns the
error; when the first row scans to `v` it returns `v` and nil; when the first row does not scan it
returns `0` and the scan error; when there is no row it panics with "Get meta data failed";
`LastRatings()` is `GetMeta("last_count")` and `Version()` is `GetMeta("version")`. -/
theorem GetMeta_cases {σ : Type} (d : Driver σ) (s : σ) (name : String) :
    (∀ err, d.Query s selectMeta [.str name] = .error err →
        GetMeta d s name = .ret (0, some err)) ∧
      (∀ row rest v, d.Query s selectMeta [.str name] = .ok (row :: rest) →
        scanInt row = .ok v → GetMeta d s name = .ret (v, none)) ∧
      (∀ row rest err, d.Query s selectMeta [.str name] = .ok (row :: rest) →
        scanInt row = .error err → GetMeta d s name = .ret (0, some err)) ∧
      (d.Query s selectMeta [.str name] = .ok [] →
        GetMeta d s name = .panic "Get meta data failed") ∧
      LastRatings d s = GetMeta d s "last_count" ∧
      Version d s = GetMeta d s "version" := by
  refine ⟨?_, ?_, ?_, ?_, rfl, rfl⟩
  · intro err h
    simp [GetMeta, h]
  · intro row rest v h hv
    simp [GetMeta, h, hv]
  · intro row rest err h hv
    simp [GetMeta, h, hv]
  · intro h
    simp [GetMeta, h]

theorem GetMeta_cases_on_stubs :
    GetMeta (oneRowDriver (.int 3)) () "version" = .ret (3, none) ∧
      GetMeta noRowDriver () "last_count" = .panic "Get meta data failed" :=
  ⟨(GetMeta_cases (oneRowDriver (.int 3)) () "version").2.1 [.int 3] [] 3 rfl rfl,
    (GetMeta_cases noRowDriver () "last_count").2.2.2.1 rfl⟩

/-! ### Schema -/

/-- C10, statically: `Init` declares `ratings(user_id, item_id, rating)`,
`recommends(user_id, item_id, ranking)` and `items(item_id)`; the statement of `GetMeta` names the
table `status`, which is not among them, and the statement of `GetRecommends` names the column
`rating` of `recommends`, which that table does not have; the other three statements name only
declared tables and columns. -/
theorem schema_names_undeclared :
    initSchema =
        [("ratings", ["user_id", "item_id", "rating"]),
          ("recommends", ["user_id", "item_id", "ranking"]), ("items", ["item_id"])] ∧
      operationStmts.map (fun p => (p.1, undeclared initSchema p.2)) =
        [("GetMeta", ["status"]), ("CurrentRatings", []),
          ("GetRecommends", ["recommends.rating"]), ("UpdateRecommends", []),
          ("PutRating", [])] := by
  decide

/-! ### Benchmark calls -/

/-- C9, at `TestWRMF`: the call passes 6 names, 7 evaluators and 6 expectations; the seventh
evaluator, `NewMRR(math.MaxInt32)`, has no name and no expectation. It is the only call whose
three lists differ in length. -/
theorem TestWRMF_lengths :
    TestWRMF.evalNames.length = 6 ∧ TestWRMF.evaluators.length = 7 ∧
      TestWRMF.expectations.length = 6 ∧
      TestWRMF.evaluators.get? 6 = some "NewMRR(math.MaxInt32)" ∧
      TestWRMF.evalNames.get? 6 = none ∧ TestWRMF.expectations.get? 6 = none ∧
      (perfCalls.filter (fun c => !c.sameLength)).map (·.test) = ["TestWRMF"] := by
  decide

/-! ### Benchmark checks -/

theorem regressionLoop_pass_iff (Mean : List F64 → F64) (results : List CrossValidateResult)
    (expectations : List F64) (names : List String) (i : Nat) :
    regressionLoop Mean results expectations names i = .pass ↔
      ∀ k, k < names.length → ∃ r e, results[i + k]? = some r ∧
        expectations[i + k]? = some e ∧
        F64.gt (Mean r.TestScore) (F64.add e ratingEpsilon) = false := by
  induction names generalizing i with
  | nil => simp [regressionLoop]
  | cons name rest ih =>
    constructor
    · intro h k hk
      unfold regressionLoop at h
      cases hr : results[i]? with
      | none => simp [hr] at h
      | some r =>
        cases he : expectations[i]? with
        | none => simp [hr, he] at h
        | some e =>
          simp only [hr, he] at h
          by_cases hc : F64.gt (Mean r.TestScore) (F64.add e ratingEpsilon) = true
          · simp [hc] at h
          · simp only [hc] at h
            cases k with
            | zero => exact ⟨r, e, by simpa using hr, by simpa using he, by simpa using hc⟩
            | succ k =>
              have := (ih (i + 1)).1 (by simpa using h) k (by simpa using hk)
              simpa [Nat.add_assoc, Nat.add_comm 1 k] using this
    · intro h
      obtain ⟨r, e, hr, he, hc⟩ := h 0 (by simp)
      simp only [Nat.add_zero] at hr he
      unfold regressionLoop
      simp only [hr, he, hc]
      apply (ih (i + 1)).2
      intro k hk
      have := h (k + 1) (by simpa using hk)
      simpa [Nat.add_assoc, Nat.add_comm 1 k] using this

theorem rankLoop_pass_iff (Mean : List F64 → F64) (results : List CrossValidateResult)
    (expectations : List F64) (names : List String) (i : Nat) :
    rankLoop Mean results expectations names i = .pass ↔
      ∀ k, k < names.length → ∃ r e, results[i + k]? = some r ∧
        expectations[i + k]? = some e ∧
        F64.lt (Mean r.TestScore) (F64.sub e rankingEpsilon) = false := by
  induction names generalizing i with
  | nil => simp [rankLoop]
  | cons name rest ih =>
    constructor
    · intro h k hk
      unfold rankLoop at h
      cases hr : results[i]? with
      | none => simp [hr] at h
      | some r =>
        cases he : expectations[i]? with
        | none => simp [hr, he] at h
        | some e =>
          simp only [hr, he] at h
          by_cases hc : F64.lt (Mean r.TestScore) (F64.sub e rankingEpsilon) = true
          · simp [hc] at h
          · simp only [hc] at h
            cases k with
            | zero => exact ⟨r, e, by simpa using hr, by simpa using he, by simpa using hc⟩
            | succ k =>
              have := (ih (i + 1)).1 (by simpa using h) k (by simpa using hk)
              simpa [Nat.add_assoc, Nat.add_comm 1 k] using this
    · intro h
      obtain ⟨r, e, hr, he, hc⟩ := h 0 (by simp)
      simp only [Nat.add_zero] at hr he
      unfold rankLoop
      simp only [hr, he, hc]
      apply (ih (i + 1)).2
      intro k hk
      have := h (k + 1) (by simpa using hk)
      simpa [Nat.add_assoc, Nat.add_comm 1 k] using this

/-- On finite values the float comparisons are the order of the values. -/
theorem F64.gt_fin (a b : ℚ) :
    (F64.gt (.fin a) (.fin b) = true ↔ b < a) ∧ (F64.lt (.fin a) (.fin b) = true ↔ a < b) := by
  simp [F64.gt, F64.lt]

/-- A NaN mean passes both checks. -/
theorem F64.nan_passes (b : F64) : F64.gt .nan b = false ∧ F64.lt .nan b = false := by
  cases b <;> simp [F64.gt, F64.lt]

/-- The float model at the edge of the tolerance: the `float64` sum `0.944 + 0.005` is the
`float64` `0.949`, so a mean of `0.949` passes `EvaluateRegression` against `0.944`; the `float64`
difference `0.07 - 0.008` is above the `float64` `0.062`, so a mean of `0.062` fails
`EvaluateRank` against `0.07`. -/
theorem Evaluate_at_tolerance_edge :
    F64.add (F64.round 0.944) ratingEpsilon = F64.round 0.949 ∧
      EvaluateRegression seqMean ["RMSE"] [⟨[F64.round 0.949]⟩] [F64.round 0.944] = .pass ∧
      F64.lt (F64.round 0.062) (F64.sub (F64.round 0.07) rankingEpsilon) = true ∧
      EvaluateRank seqMean ["Recall@5"] [⟨[F64.round 0.062]⟩] [F64.round 0.07] = .fatal 0 := by
  decide!

/-- C5, at one evaluator and one fold: a score of `0.5` (mean `0.5`) against the expectation
`0.944` passes `EvaluateRegression` though it is `0.444` away, and a score of `1` (mean `1`)
against the expectation `0.211` passes `EvaluateRank` though it is `0.789` away. -/
theorem Evaluate_passes_outside_tolerance :
    seqMean [.fin (1 / 2)] = .fin (1 / 2) ∧
      EvaluateRegression seqMean ["RMSE"] [⟨[.fin (1 / 2)]⟩] [F64.round 0.944] = .pass ∧
      ¬ |(1 / 2 : ℚ) - 0.944| ≤ 0.005 ∧
      seqMean [.fin 1] = .fin 1 ∧
      EvaluateRank seqMean ["Prec@5"] [⟨[.fin 1]⟩] [F64.round 0.211] = .pass ∧
      ¬ |(1 : ℚ) - 0.211| ≤ 0.008 := by
  decide!

/-- C5 as amended: when `CrossValidate` returned a result, and there is an expectation, for each
name checked, `EvaluateRegression` passes exactly when at no checked index the `float64` test
`stat.Mean(results[i].TestScore) > expectations[i] + 0.005` holds, and `EvaluateRank` passes
exactly when at no checked index the `float64` test
`stat.Mean(results[i].TestScore) < expectations[i] - 0.008` holds; sum and difference are the
rounded `float64` operations, and there is no bound on the other side. -/
theorem Evaluate_pass_iff (Mean : List F64 → F64) (evalNames : List String)
    (results : List CrossValidateResult) (expectations : List F64)
    (hr : evalNames.length ≤ results.length) (he : evalNames.length ≤ expectations.length) :
    (EvaluateRegression Mean evalNames results expectations = .pass ↔
        ∀ i, i < evalNames.length →
          F64.gt (Mean (results.getD i ⟨[]⟩).TestScore)
            (F64.add (expectations.getD i .nan) (F64.round 0.005)) = false) ∧
      (EvaluateRank Mean evalNames results expectations = .pass ↔
        ∀ i, i < evalNames.length →
          F64.lt (Mean (results.getD i ⟨[]⟩).TestScore)
            (F64.sub (expectations.getD i .nan) (F64.round 0.008)) = false) := by
  constructor
  · rw [EvaluateRegression, regressionLoop_pass_iff]
    constructor
    · intro h i hi
      obtain ⟨r, e, h1, h2, h3⟩ := h i hi
      simp only [Nat.zero_add] at h1 h2
      simpa [h1, h2, ratingEpsilon] using h3
    · intro h i hi
      have hi1 : i < results.length := lt_of_lt_of_le hi hr
      have hi2 : i < expectations.length := lt_of_lt_of_le hi he
      refine ⟨results[i], expectations[i], by simp [hi1], by simp [hi2], ?_⟩
      have := h i hi
      simpa [hi1, hi2, ratingEpsilon] using this
  · rw [EvaluateRank, rankLoop_pass_iff]
    constructor
    · intro h i hi
      obtain ⟨r, e, h1, h2, h3⟩ := h i hi
      simp only [Nat.zero_add] at h1 h2
      simpa [h1, h2, rankingEpsilon] using h3
    · intro h i hi
      have hi1 : i < results.length := lt_of_lt_of_le hi hr
      have hi2 : i < expectations.length := lt_of_lt_of_le hi he
      refine ⟨results[i], expectations[i], by simp [hi1], by simp [hi2], ?_⟩
      have := h i hi
      simpa [hi1, hi2, rankingEpsilon] using this

theorem Evaluate_pass_iff_witness :
    EvaluateRegression seqMean ["RMSE", "MAE"]
        [⟨[F64.round 0.94, F64.round 0.95]⟩, ⟨[F64.round 0.74, F64.round 0.75]⟩]
        [F64.round 0.944, F64.round 0.748] = .pass ∧
      EvaluateRank seqMean ["Prec@5", "MRR"]
        [⟨[F64.round 0.21, F64.round 0.22]⟩, ⟨[F64.round 0.41, F64.round 0.42]⟩]
        [F64.round 0.211, F64.round 0.417] = .pass :=
  ⟨(Evaluate_pass_iff seqMean ["RMSE", "MAE"]
      [⟨[F64.round 0.94, F64.round 0.95]⟩, ⟨[F64.round 0.74, F64.round 0.75]⟩]
      [F64.round 0.944, F64.round 0.748] (by decide) (by decide)).1.2
      (by
        intro i hi
        have hi2 : i < 2 := hi
        interval_cases i <;> decide!),
    (Evaluate_pass_iff seqMean ["Prec@5", "MRR"]
      [⟨[F64.round 0.21, F64.round 0.22]⟩, ⟨[F64.round 0.41, F64.round 0.42]⟩]
      [F64.round 0.211, F64.round 0.417] (by decide) (by decide)).2.2
      (by
        intro i hi
        have hi2 : i < 2 := hi
        interval_cases i <;> decide!)⟩

end Gorse
